import Mathlib

/-!
Shallow embedding of the bitcoin-data-mcp server core (src/main.rs):
the endpoint tables, the serde-style parameter decoding of the eight tool
parameter structs, the tool dispatch in call_tool, the tool catalog in
list_tools and the schema generation in make_schema. The external HTTP
collaborator (fetch_esplora) is passed in as a function argument.
-/

set_option maxRecDepth 2000

/-- JSON values, modelling serde_json::Value. Objects are ordered field
lists, matching the order in which the deserializer visits map entries. -/
inductive Json where
  | null : Json
  | bool (b : Bool) : Json
  | num (n : Int) : Json
  | str (s : String) : Json
  | arr (xs : List Json) : Json
  | obj (fields : List (String × Json)) : Json

/-- Short description of a JSON value kind, used in serde type errors. -/
def jsonTypeName : Json → String
  | .null => "null"
  | .bool _ => "a boolean"
  | .num _ => "an integer"
  | .str _ => "a string"
  | .arr _ => "a sequence"
  | .obj _ => "a map"

/-- First value bound to a key in an object field list. -/
def getField (o : List (String × Json)) (k : String) : Option Json :=
  (o.find? (fun p => p.1 == k)).map (fun p => p.2)

-- Esplora API base URLs for all supported networks (src/main.rs:18-22)
def BITCOIN_MAINNET_API : String := "https://blockstream.info/api"

def BITCOIN_TESTNET_API : String := "https://blockstream.info/testnet/api"

def BITCOIN_SIGNET_API : String := "https://blockstream.info/signet/api"

def LIQUID_MAINNET_API : String := "https://blockstream.info/liquid/api"

def LIQUID_TESTNET_API : String := "https://blockstream.info/liquidtestnet/api"

/-- Network types for Bitcoin (src/main.rs:27-32); Mainnet is the
serde/schemars default variant. -/
inductive BitcoinNetwork where
  | Mainnet : BitcoinNetwork
  | Testnet : BitcoinNetwork
  | Signet : BitcoinNetwork
deriving DecidableEq

/-- Network types for Liquid (src/main.rs:47-51); Mainnet is the default. -/
inductive LiquidNetwork where
  | Mainnet : LiquidNetwork
  | Testnet : LiquidNetwork
deriving DecidableEq

/-- BitcoinNetwork::api_base (src/main.rs:35-41). -/
def BitcoinNetwork.api_base : BitcoinNetwork → String
  | .Mainnet => BITCOIN_MAINNET_API
  | .Testnet => BITCOIN_TESTNET_API
  | .Signet => BITCOIN_SIGNET_API

/-- LiquidNetwork::api_base (src/main.rs:54-59). -/
def LiquidNetwork.api_base : LiquidNetwork → String
  | .Mainnet => LIQUID_MAINNET_API
  | .Testnet => LIQUID_TESTNET_API

/-- serde deserialization of a String field. -/
def decodeString (v : Json) : Except String String :=
  match v with
  | .str s => .ok s
  | v => .error ("invalid type: " ++ jsonTypeName v ++ ", expected a string")

/-- serde deserialization of BitcoinNetwork: a lowercase unit-variant tag
(rename_all = lowercase on src/main.rs:26). -/
def decodeBitcoinNetwork (v : Json) : Except String BitcoinNetwork :=
  match v with
  | .str s =>
    if s = "mainnet" then .ok .Mainnet
    else if s = "testnet" then .ok .Testnet
    else if s = "signet" then .ok .Signet
    else .error ("unknown variant `" ++ s ++
      "`, expected one of `mainnet`, `testnet`, `signet`")
  | v => .error ("invalid type: " ++ jsonTypeName v ++ ", expected variant identifier")

/-- serde deserialization of LiquidNetwork: a lowercase unit-variant tag
(rename_all = lowercase on src/main.rs:46). -/
def decodeLiquidNetwork (v : Json) : Except String LiquidNetwork :=
  match v with
  | .str s =>
    if s = "mainnet" then .ok .Mainnet
    else if s = "testnet" then .ok .Testnet
    else .error ("unknown variant `" ++ s ++ "`, expected `mainnet` or `testnet`")
  | v => .error ("invalid type: " ++ jsonTypeName v ++ ", expected variant identifier")

/-- serde derived visit_map for a two-field struct: the deserializer walks
the object entries in order, filling one slot per declared field, erroring
on a duplicate field or an undecodable value, and ignoring unknown keys
(no deny_unknown_fields on the structs in src/main.rs). -/
def decodeFields2 {α β : Type} (f1 f2 : String)
    (d1 : Json → Except String α) (d2 : Json → Except String β) :
    List (String × Json) → Option α → Option β → Except String (Option α × Option β)
  | [], s1, s2 => .ok (s1, s2)
  | (k, v) :: rest, s1, s2 =>
    if k == f1 then
      match s1 with
      | some _ => .error ("duplicate field `" ++ f1 ++ "`")
      | none =>
        match d1 v with
        | .error e => .error e
        | .ok a => decodeFields2 f1 f2 d1 d2 rest (some a) s2
    else if k == f2 then
      match s2 with
      | some _ => .error ("duplicate field `" ++ f2 ++ "`")
      | none =>
        match d2 v with
        | .error e => .error e
        | .ok b => decodeFields2 f1 f2 d1 d2 rest s1 (some b)
    else
      decodeFields2 f1 f2 d1 d2 rest s1 s2

/-- serde derived visit_map for a one-field struct, same conventions as
decodeFields2. -/
def decodeFields1 {β : Type} (f : String) (d : Json → Except String β) :
    List (String × Json) → Option β → Except String (Option β)
  | [], s => .ok s
  | (k, v) :: rest, s =>
    if k == f then
      match s with
      | some _ => .error ("duplicate field `" ++ f ++ "`")
      | none =>
        match d v with
        | .error e => .error e
        | .ok b => decodeFields1 f d rest (some b)
    else
      decodeFields1 f d rest s

/-- Parameters of get_bitcoin_tx (src/main.rs:66-74): required txid,
optional network defaulting to Mainnet. -/
structure GetBitcoinTxParams where
  txid : String
  network : BitcoinNetwork

/-- serde_json::from_value for GetBitcoinTxParams. -/
def GetBitcoinTxParams.decode (o : List (String × Json)) :
    Except String GetBitcoinTxParams :=
  match decodeFields2 "txid" "network" decodeString decodeBitcoinNetwork o none none with
  | .error e => .error e
  | .ok (s1, s2) =>
    match s1 with
    | none => .error "missing field `txid`"
    | some t => .ok ⟨t, s2.getD BitcoinNetwork.Mainnet⟩

/-- Parameters of get_liquid_tx (src/main.rs:77-83). -/
structure GetLiquidTxParams where
  txid : String
  network : LiquidNetwork

/-- serde_json::from_value for GetLiquidTxParams. -/
def GetLiquidTxParams.decode (o : List (String × Json)) :
    Except String GetLiquidTxParams :=
  match decodeFields2 "txid" "network" decodeString decodeLiquidNetwork o none none with
  | .error e => .error e
  | .ok (s1, s2) =>
    match s1 with
    | none => .error "missing field `txid`"
    | some t => .ok ⟨t, s2.getD LiquidNetwork.Mainnet⟩

/-- Parameters of get_bitcoin_block (src/main.rs:86-94): required hash. -/
structure GetBitcoinBlockParams where
  hash : String
  network : BitcoinNetwork

/-- serde_json::from_value for GetBitcoinBlockParams. -/
def GetBitcoinBlockParams.decode (o : List (String × Json)) :
    Except String GetBitcoinBlockParams :=
  match decodeFields2 "hash" "network" decodeString decodeBitcoinNetwork o none none with
  | .error e => .error e
  | .ok (s1, s2) =>
    match s1 with
    | none => .error "missing field `hash`"
    | some h => .ok ⟨h, s2.getD BitcoinNetwork.Mainnet⟩

/-- Parameters of get_liquid_block (src/main.rs:97-103). -/
structure GetLiquidBlockParams where
  hash : String
  network : LiquidNetwork

/-- serde_json::from_value for GetLiquidBlockParams. -/
def GetLiquidBlockParams.decode (o : List (String × Json)) :
    Except String GetLiquidBlockParams :=
  match decodeFields2 "hash" "network" decodeString decodeLiquidNetwork o none none with
  | .error e => .error e
  | .ok (s1, s2) =>
    match s1 with
    | none => .error "missing field `hash`"
    | some h => .ok ⟨h, s2.getD LiquidNetwork.Mainnet⟩

/-- Parameters of get_bitcoin_tip_height (src/main.rs:106-112): only the
optional network field. -/
structure GetBitcoinTipHeightParams where
  network : BitcoinNetwork

/-- serde_json::from_value for GetBitcoinTipHeightParams. -/
def GetBitcoinTipHeightParams.decode (o : List (String × Json)) :
    Except String GetBitcoinTipHeightParams :=
  match decodeFields1 "network" decodeBitcoinNetwork o none with
  | .error e => .error e
  | .ok s => .ok ⟨s.getD BitcoinNetwork.Mainnet⟩

/-- Parameters of get_liquid_tip_height (src/main.rs:115-119). -/
structure GetLiquidTipHeightParams where
  network : LiquidNetwork

/-- serde_json::from_value for GetLiquidTipHeightParams. -/
def GetLiquidTipHeightParams.decode (o : List (String × Json)) :
    Except String GetLiquidTipHeightParams :=
  match decodeFields1 "network" decodeLiquidNetwork o none with
  | .error e => .error e
  | .ok s => .ok ⟨s.getD LiquidNetwork.Mainnet⟩

/-- Parameters of get_bitcoin_mempool (src/main.rs:122-128). -/
structure GetBitcoinMempoolParams where
  network : BitcoinNetwork

/-- serde_json::from_value for GetBitcoinMempoolParams. -/
def GetBitcoinMempoolParams.decode (o : List (String × Json)) :
    Except String GetBitcoinMempoolParams :=
  match decodeFields1 "network" decodeBitcoinNetwork o none with
  | .error e => .error e
  | .ok s => .ok ⟨s.getD BitcoinNetwork.Mainnet⟩

/-- Parameters of get_liquid_mempool (src/main.rs:131-135). -/
structure GetLiquidMempoolParams where
  network : LiquidNetwork

/-- serde_json::from_value for GetLiquidMempoolParams. -/
def GetLiquidMempoolParams.decode (o : List (String × Json)) :
    Except String GetLiquidMempoolParams :=
  match decodeFields1 "network" decodeLiquidNetwork o none with
  | .error e => .error e
  | .ok s => .ok ⟨s.getD LiquidNetwork.Mainnet⟩

/-- rmcp ErrorData: a JSON-RPC error code plus a message (the optional
data field is always None in this program). -/
structure ErrorData where
  code : Int
  message : String
deriving DecidableEq

/-- ErrorData::invalid_request, JSON-RPC code -32600. -/
def ErrorData.invalid_request (m : String) : ErrorData := ⟨-32600, m⟩

/-- ErrorData::internal_error, JSON-RPC code -32603. -/
def ErrorData.internal_error (m : String) : ErrorData := ⟨-32603, m⟩

/-- rmcp Content; only Content::text is used by this program. -/
inductive Content where
  | text (s : String) : Content
deriving DecidableEq

/-- rmcp CallToolResult. -/
structure CallToolResult where
  content : List Content
  is_error : Option Bool
deriving DecidableEq

/-- CallToolResult::success: wraps content with is_error = Some(false). -/
def CallToolResult.success (c : List Content) : CallToolResult := ⟨c, some false⟩

/-- One field of a parameter shape as schemars sees it via the derive on
the Rust struct: name, authoring description, required flag (no
serde default) and the schema fragment of the field type. -/
structure FieldShape where
  name : String
  description : String
  required : Bool
  typeSchema : Json

/-- A parameter shape descriptor: struct name plus declared fields in
declaration order. One per parameter struct of src/main.rs. -/
structure ShapeDesc where
  title : String
  fields : List FieldShape

/-- Schema fragment of a plain String field. -/
def stringSchema : Json := .obj [("type", .str "string")]

/-- Schema fragment of the BitcoinNetwork enum: closed lowercase tag set. -/
def bitcoinNetworkSchema : Json :=
  .obj [("type", .str "string"),
        ("enum", .arr [.str "mainnet", .str "testnet", .str "signet"]),
        ("default", .str "mainnet")]

/-- Schema fragment of the LiquidNetwork enum: closed lowercase tag set. -/
def liquidNetworkSchema : Json :=
  .obj [("type", .str "string"),
        ("enum", .arr [.str "mainnet", .str "testnet"]),
        ("default", .str "mainnet")]

/-- Attach the schemars description attribute to a field schema fragment. -/
def withDescription (d : String) (v : Json) : Json :=
  match v with
  | .obj fs => .obj (("description", .str d) :: fs)
  | v => v

/-- schemars::schema_for! over a shape descriptor: a JSON-schema object
with title, type, ordered properties and the required-field list, a pure
function of the shape. -/
def schema_for (s : ShapeDesc) : Json :=
  .obj [("$schema", .str "http://json-schema.org/draft-07/schema#"),
        ("title", .str s.title),
        ("type", .str "object"),
        ("properties",
          .obj (s.fields.map (fun f => (f.name, withDescription f.description f.typeSchema)))),
        ("required",
          .arr ((s.fields.filter (fun f => f.required)).map (fun f => .str f.name)))]

/-- make_schema (src/main.rs:144-155): serialize the generated schema and
keep it only when the serialized value is a JSON object. -/
def make_schema (s : ShapeDesc) : Except ErrorData (List (String × Json)) :=
  match schema_for s with
  | .obj m => .ok m
  | _ => .error (ErrorData.internal_error "Schema is not an object")

/-- Shape of GetBitcoinTxParams. -/
def getBitcoinTxShape : ShapeDesc :=
  ⟨"GetBitcoinTxParams",
   [⟨"txid", "The transaction ID (txid) hash to look up.", true, stringSchema⟩,
    ⟨"network",
     "The Bitcoin network to query: \x27mainnet\x27 (default), \x27testnet\x27, or \x27signet\x27.",
     false, bitcoinNetworkSchema⟩]⟩

/-- Shape of GetLiquidTxParams. -/
def getLiquidTxShape : ShapeDesc :=
  ⟨"GetLiquidTxParams",
   [⟨"txid", "The transaction ID (txid) hash to look up.", true, stringSchema⟩,
    ⟨"network",
     "The Liquid network to query: \x27mainnet\x27 (default) or \x27testnet\x27.",
     false, liquidNetworkSchema⟩]⟩

/-- Shape of GetBitcoinBlockParams. -/
def getBitcoinBlockShape : ShapeDesc :=
  ⟨"GetBitcoinBlockParams",
   [⟨"hash", "The block hash to look up.", true, stringSchema⟩,
    ⟨"network",
     "The Bitcoin network to query: \x27mainnet\x27 (default), \x27testnet\x27, or \x27signet\x27.",
     false, bitcoinNetworkSchema⟩]⟩

/-- Shape of GetLiquidBlockParams. -/
def getLiquidBlockShape : ShapeDesc :=
  ⟨"GetLiquidBlockParams",
   [⟨"hash", "The block hash to look up.", true, stringSchema⟩,
    ⟨"network",
     "The Liquid network to query: \x27mainnet\x27 (default) or \x27testnet\x27.",
     false, liquidNetworkSchema⟩]⟩

/-- Shape of GetBitcoinTipHeightParams. -/
def getBitcoinTipHeightShape : ShapeDesc :=
  ⟨"GetBitcoinTipHeightParams",
   [⟨"network",
     "The Bitcoin network to query: \x27mainnet\x27 (default), \x27testnet\x27, or \x27signet\x27.",
     false, bitcoinNetworkSchema⟩]⟩

/-- Shape of GetLiquidTipHeightParams. -/
def getLiquidTipHeightShape : ShapeDesc :=
  ⟨"GetLiquidTipHeightParams",
   [⟨"network",
     "The Liquid network to query: \x27mainnet\x27 (default) or \x27testnet\x27.",
     false, liquidNetworkSchema⟩]⟩

/-- Shape of GetBitcoinMempoolParams. -/
def getBitcoinMempoolShape : ShapeDesc :=
  ⟨"GetBitcoinMempoolParams",
   [⟨"network",
     "The Bitcoin network to query: \x27mainnet\x27 (default), \x27testnet\x27, or \x27signet\x27.",
     false, bitcoinNetworkSchema⟩]⟩

/-- Shape of GetLiquidMempoolParams. -/
def getLiquidMempoolShape : ShapeDesc :=
  ⟨"GetLiquidMempoolParams",
   [⟨"network",
     "The Liquid network to query: \x27mainnet\x27 (default) or \x27testnet\x27.",
     false, liquidNetworkSchema⟩]⟩

/-- The eight registered parameter shapes, in registration order. -/
def registeredShapes : List ShapeDesc :=
  [getBitcoinTxShape, getLiquidTxShape, getBitcoinBlockShape, getLiquidBlockShape,
   getBitcoinTipHeightShape, getLiquidTipHeightShape,
   getBitcoinMempoolShape, getLiquidMempoolShape]

/-- Deterministic JSON printer, giving the serialized byte form of a
schema document. -/
def serialize : Json → String
  | .null => "null"
  | .bool true => "true"
  | .bool false => "false"
  | .num n => toString n
  | .str s => "\x22" ++ s ++ "\x22"
  | .arr xs =>
    "[" ++ String.intercalate "," (xs.attach.map (fun x => serialize x.1)) ++ "]"
  | .obj fs =>
    "\x7b" ++
      String.intercalate ","
        (fs.attach.map (fun q =>
          match q with
          | ⟨(k, v), _⟩ => "\x22" ++ k ++ "\x22:" ++ serialize v)) ++
    "\x7d"
decreasing_by all_goals (simp_wf; first
  | (have hx := List.sizeOf_lt_of_mem x.2; omega)
  | (rename_i h; have h1 := List.sizeOf_lt_of_mem h; simp at h1; omega))

/-- fetch_transaction (src/main.rs:167-169); fe is the external
fetch_esplora collaborator. -/
def fetch_transaction (fe : String → Except String String)
    (base_url txid : String) : Except String String :=
  fe (base_url ++ "/tx/" ++ txid)

/-- fetch_block (src/main.rs:171-173). -/
def fetch_block (fe : String → Except String String)
    (base_url hash : String) : Except String String :=
  fe (base_url ++ "/block/" ++ hash)

/-- fetch_tip_height (src/main.rs:175-177). -/
def fetch_tip_height (fe : String → Except String String)
    (base_url : String) : Except String String :=
  fe (base_url ++ "/blocks/tip/height")

/-- fetch_mempool (src/main.rs:179-181). -/
def fetch_mempool (fe : String → Except String String)
    (base_url : String) : Except String String :=
  fe (base_url ++ "/mempool")

/-- The success/internal-error envelope wrapping at the end of every
call_tool branch: handler success becomes a single text content, handler
failure becomes ErrorData::internal_error. -/
def wrapFetch (r : Except String String) : Except ErrorData CallToolResult :=
  match r with
  | .error e => .error (ErrorData.internal_error e)
  | .ok result => .ok (CallToolResult.success [Content.text result])

/-- call_tool (src/main.rs:272-360): unwrap absent arguments to the empty
object, then dispatch on the tool name; each branch decodes its parameter
struct (invalid_request on failure), calls its fetch helper against the
decoded network and wraps the outcome; an unmatched name yields the
Unknown tool invalid_request error. -/
def call_tool (fe : String → Except String String) (name : String)
    (arguments : Option (List (String × Json))) : Except ErrorData CallToolResult :=
  let args := arguments.getD []
  if name = "get_bitcoin_tx" then
    match GetBitcoinTxParams.decode args with
    | .error e => .error (ErrorData.invalid_request ("Invalid parameters: " ++ e))
    | .ok p => wrapFetch (fetch_transaction fe p.network.api_base p.txid)
  else if name = "get_liquid_tx" then
    match GetLiquidTxParams.decode args with
    | .error e => .error (ErrorData.invalid_request ("Invalid parameters: " ++ e))
    | .ok p => wrapFetch (fetch_transaction fe p.network.api_base p.txid)
  else if name = "get_bitcoin_block" then
    match GetBitcoinBlockParams.decode args with
    | .error e => .error (ErrorData.invalid_request ("Invalid parameters: " ++ e))
    | .ok p => wrapFetch (fetch_block fe p.network.api_base p.hash)
  else if name = "get_liquid_block" then
    match GetLiquidBlockParams.decode args with
    | .error e => .error (ErrorData.invalid_request ("Invalid parameters: " ++ e))
    | .ok p => wrapFetch (fetch_block fe p.network.api_base p.hash)
  else if name = "get_bitcoin_tip_height" then
    match GetBitcoinTipHeightParams.decode args with
    | .error e => .error (ErrorData.invalid_request ("Invalid parameters: " ++ e))
    | .ok p => wrapFetch (fetch_tip_height fe p.network.api_base)
  else if name = "get_liquid_tip_height" then
    match GetLiquidTipHeightParams.decode args with
    | .error e => .error (ErrorData.invalid_request ("Invalid parameters: " ++ e))
    | .ok p => wrapFetch (fetch_tip_height fe p.network.api_base)
  else if name = "get_bitcoin_mempool" then
    match GetBitcoinMempoolParams.decode args with
    | .error e => .error (ErrorData.invalid_request ("Invalid parameters: " ++ e))
    | .ok p => wrapFetch (fetch_mempool fe p.network.api_base)
  else if name = "get_liquid_mempool" then
    match GetLiquidMempoolParams.decode args with
    | .error e => .error (ErrorData.invalid_request ("Invalid parameters: " ++ e))
    | .ok p => wrapFetch (fetch_mempool fe p.network.api_base)
  else
    .error (ErrorData.invalid_request ("Unknown tool: " ++ name))

/-- rmcp Tool descriptor; output_schema, annotations and icons are always
None in this program. -/
structure Tool where
  name : String
  title : Option String
  description : Option String
  input_schema : List (String × Json)
  output_schema : Option (List (String × Json))

/-- rmcp PaginatedRequestParam: an optional opaque cursor. -/
structure PaginatedRequestParam where
  cursor : Option String

/-- rmcp ListToolsResult. -/
structure ListToolsResult where
  tools : List Tool
  next_cursor : Option String

/-- The eight registered tool names, in registration order
(src/main.rs:193-266). -/
def toolNames : List String :=
  ["get_bitcoin_tx", "get_liquid_tx", "get_bitcoin_block", "get_liquid_block",
   "get_bitcoin_tip_height", "get_liquid_tip_height",
   "get_bitcoin_mempool", "get_liquid_mempool"]

/-- list_tools (src/main.rs:187-269): ignores the pagination input and
returns the fixed catalog of eight tools, next_cursor = None. -/
def list_tools (_params : Option PaginatedRequestParam) :
    Except ErrorData ListToolsResult := do
  let s1 ← make_schema getBitcoinTxShape
  let s2 ← make_schema getLiquidTxShape
  let s3 ← make_schema getBitcoinBlockShape
  let s4 ← make_schema getLiquidBlockShape
  let s5 ← make_schema getBitcoinTipHeightShape
  let s6 ← make_schema getLiquidTipHeightShape
  let s7 ← make_schema getBitcoinMempoolShape
  let s8 ← make_schema getLiquidMempoolShape
  .ok
    { tools :=
        [⟨"get_bitcoin_tx", none,
          some "Get a Bitcoin transaction by its txid from the Esplora API. Returns full transaction data including confirmation status and block height.",
          s1, none⟩,
         ⟨"get_liquid_tx", none,
          some "Get a Liquid transaction by its txid from the Esplora API. Returns full transaction data including confirmation status and block height.",
          s2, none⟩,
         ⟨"get_bitcoin_block", none,
          some "Get a Bitcoin block by its hash from the Esplora API. Returns block data including height, timestamp, tx_count, size, and weight.",
          s3, none⟩,
         ⟨"get_liquid_block", none,
          some "Get a Liquid block by its hash from the Esplora API. Returns block data including height, timestamp, tx_count, size, and weight.",
          s4, none⟩,
         ⟨"get_bitcoin_tip_height", none,
          some "Get the current Bitcoin blockchain tip height from the Esplora API.",
          s5, none⟩,
         ⟨"get_liquid_tip_height", none,
          some "Get the current Liquid blockchain tip height from the Esplora API.",
          s6, none⟩,
         ⟨"get_bitcoin_mempool", none,
          some "Get Bitcoin mempool statistics from the Esplora API. Returns tx count, total vsize, total fees, and fee histogram.",
          s7, none⟩,
         ⟨"get_liquid_mempool", none,
          some "Get Liquid mempool statistics from the Esplora API. Returns tx count, total vsize, total fees, and fee histogram.",
          s8, none⟩],
      next_cursor := none }

/-! ## Decoder lemmas -/

/-- Decoding a two-field struct only depends on the entries whose key is a
declared field: unknown entries are skipped. -/
theorem decodeFields2_filter {α β : Type} (f1 f2 : String)
    (d1 : Json → Except String α) (d2 : Json → Except String β) :
    ∀ (l : List (String × Json)) (s1 : Option α) (s2 : Option β),
    decodeFields2 f1 f2 d1 d2 l s1 s2 =
      decodeFields2 f1 f2 d1 d2 (l.filter (fun p => p.1 == f1 || p.1 == f2)) s1 s2 := by
  intro l
  induction l with
  | nil => intro s1 s2; rfl
  | cons hd tl ih =>
    intro s1 s2
    obtain ⟨k, u⟩ := hd
    by_cases h1 : (k == f1) = true
    · have hp : (fun p : String × Json => p.1 == f1 || p.1 == f2) (k, u) = true := by
        simp [h1]
      rw [List.filter_cons]
      simp only [h1, Bool.true_or, if_true]
      simp only [decodeFields2, h1, if_true]
      cases s1 with
      | some a => rfl
      | none =>
        cases hd1 : d1 u with
        | error e => rfl
        | ok a => exact ih (some a) s2
    · by_cases h2 : (k == f2) = true
      · have hp : (fun p : String × Json => p.1 == f1 || p.1 == f2) (k, u) = true := by
          simp [h2]
        rw [List.filter_cons]
        simp only [h2, Bool.or_true, if_true]
        simp only [decodeFields2, h1, h2, if_true, if_false, Bool.false_eq_true]
        cases s2 with
        | some b => rfl
        | none =>
          cases hd2 : d2 u with
          | error e => rfl
          | ok b => exact ih s1 (some b)
      · have hp : (fun p : String × Json => p.1 == f1 || p.1 == f2) (k, u) = false := by
          simp only [Bool.or_eq_false_iff]
          exact ⟨by simpa using h1, by simpa using h2⟩
        rw [List.filter_cons]
        simp only [Bool.not_eq_true] at h1 h2
        simp only [h1, h2, Bool.or_self, Bool.false_eq_true, if_false]
        simp only [decodeFields2, h1, h2, if_false, Bool.false_eq_true]
        exact ih s1 s2

/-- Decoding a one-field struct only depends on the entries whose key is
the declared field. -/
theorem decodeFields1_filter {β : Type} (f : String) (d : Json → Except String β) :
    ∀ (l : List (String × Json)) (s : Option β),
    decodeFields1 f d l s =
      decodeFields1 f d (l.filter (fun p => p.1 == f)) s := by
  intro l
  induction l with
  | nil => intro s; rfl
  | cons hd tl ih =>
    intro s
    obtain ⟨k, u⟩ := hd
    by_cases h1 : (k == f) = true
    · rw [List.filter_cons]
      simp only [h1, if_true]
      simp only [decodeFields1, h1, if_true]
      cases s with
      | some b => rfl
      | none =>
        cases hd1 : d u with
        | error e => rfl
        | ok b => exact ih (some b)
    · rw [List.filter_cons]
      simp only [Bool.not_eq_true] at h1
      simp only [h1, Bool.false_eq_true, if_false]
      simp only [decodeFields1, h1, if_false, Bool.false_eq_true]
      exact ih s

/-- If the first entry bound to the second declared field fails to decode,
the whole two-field struct decode fails, whatever the other entries and
slot states are. -/
theorem decodeFields2_firstbad {α β : Type} (f1 f2 : String)
    (d1 : Json → Except String α) (d2 : Json → Except String β)
    (hne : f1 ≠ f2) :
    ∀ (l : List (String × Json)) (v : Json) (e : String),
    getField l f2 = some v → d2 v = .error e →
    ∀ (s1 : Option α) (s2 : Option β),
    ∃ e2, decodeFields2 f1 f2 d1 d2 l s1 s2 = .error e2 := by
  intro l
  induction l with
  | nil => intro v e hg; simp [getField] at hg
  | cons hd tl ih =>
    intro v e hg hd2 s1 s2
    obtain ⟨k, u⟩ := hd
    by_cases h2 : (k == f2) = true
    · have hk : k = f2 := by simpa using h2
      have h1 : (k == f1) = false := by
        simp only [beq_eq_false_iff_ne]
        intro hk1
        exact hne (hk1 ▸ hk ▸ rfl)
      have hu : u = v := by
        simp [getField, List.find?, h2] at hg
        exact hg
      subst hu
      simp only [decodeFields2, h1, h2, if_true, if_false, Bool.false_eq_true]
      cases s2 with
      | some b => exact ⟨_, rfl⟩
      | none => rw [hd2]; exact ⟨_, rfl⟩
    · have hg' : getField tl f2 = some v := by
        simp [getField, List.find?, h2] at hg ⊢
        exact hg
      by_cases h1 : (k == f1) = true
      · simp only [decodeFields2, h1, if_true]
        cases s1 with
        | some a => exact ⟨_, rfl⟩
        | none =>
          cases hd1 : d1 u with
          | error e3 => exact ⟨_, rfl⟩
          | ok a => exact ih v e hg' hd2 (some a) s2
      · simp only [decodeFields2, h1, h2, if_false, Bool.false_eq_true]
        exact ih v e hg' hd2 s1 s2

/-- If the first entry bound to the declared field fails to decode, the
one-field struct decode fails. -/
theorem decodeFields1_firstbad {β : Type} (f : String) (d : Json → Except String β) :
    ∀ (l : List (String × Json)) (v : Json) (e : String),
    getField l f = some v → d v = .error e →
    ∀ (s : Option β),
    ∃ e2, decodeFields1 f d l s = .error e2 := by
  intro l
  induction l with
  | nil => intro v e hg; simp [getField] at hg
  | cons hd tl ih =>
    intro v e hg hd2 s
    obtain ⟨k, u⟩ := hd
    by_cases h2 : (k == f) = true
    · have hu : u = v := by
        simp [getField, List.find?, h2] at hg
        exact hg
      subst hu
      simp only [decodeFields1, h2, if_true]
      cases s with
      | some b => exact ⟨_, rfl⟩
      | none => rw [hd2]; exact ⟨_, rfl⟩
    · have hg' : getField tl f = some v := by
        simp [getField, List.find?, h2] at hg ⊢
        exact hg
      simp only [decodeFields1, h2, if_false, Bool.false_eq_true]
      exact ih v e hg' hd2 s

/-- A payload with no recognized entries leaves both slots untouched. -/
theorem decodeFields2_none {α β : Type} (f1 f2 : String)
    (d1 : Json → Except String α) (d2 : Json → Except String β)
    (l : List (String × Json)) (s1 : Option α) (s2 : Option β)
    (hf : l.filter (fun p => p.1 == f1 || p.1 == f2) = []) :
    decodeFields2 f1 f2 d1 d2 l s1 s2 = .ok (s1, s2) := by
  rw [decodeFields2_filter, hf]
  rfl

/-- A payload whose only recognized entry is the first field decodes to
that field's value, with the second slot left empty. -/
theorem decodeFields2_only_first {α β : Type} (f1 f2 : String)
    (d1 : Json → Except String α) (d2 : Json → Except String β)
    (l : List (String × Json)) (v : Json) (a : α)
    (hf : l.filter (fun p => p.1 == f1 || p.1 == f2) = [(f1, v)])
    (hd : d1 v = .ok a) :
    decodeFields2 f1 f2 d1 d2 l none none = .ok (some a, none) := by
  rw [decodeFields2_filter, hf]
  simp [decodeFields2, hd, decodeFields2_none]

/-- A payload whose only recognized entry is the second field decodes to
that field's value, with the first slot left empty. -/
theorem decodeFields2_only_second {α β : Type} (f1 f2 : String)
    (d1 : Json → Except String α) (d2 : Json → Except String β)
    (l : List (String × Json)) (v : Json) (b : β)
    (hne : (f2 == f1) = false)
    (hf : l.filter (fun p => p.1 == f1 || p.1 == f2) = [(f2, v)])
    (hd : d2 v = .ok b) :
    decodeFields2 f1 f2 d1 d2 l none none = .ok (none, some b) := by
  rw [decodeFields2_filter, hf]
  simp [decodeFields2, hne, hd, decodeFields2_none]

/-- One-field analogue of decodeFields2_none. -/
theorem decodeFields1_none {β : Type} (f : String) (d : Json → Except String β)
    (l : List (String × Json)) (s : Option β)
    (hf : l.filter (fun p => p.1 == f) = []) :
    decodeFields1 f d l s = .ok s := by
  rw [decodeFields1_filter, hf]
  rfl

/-- One-field analogue of decodeFields2_only_first. -/
theorem decodeFields1_only {β : Type} (f : String) (d : Json → Except String β)
    (l : List (String × Json)) (v : Json) (b : β)
    (hf : l.filter (fun p => p.1 == f) = [(f, v)])
    (hd : d v = .ok b) :
    decodeFields1 f d l none = .ok (some b) := by
  rw [decodeFields1_filter, hf]
  simp [decodeFields1, hd]

/-- Unfolding call_tool at the get_bitcoin_tx branch. -/
theorem call_tool_get_bitcoin_tx (fe : String → Except String String)
    (arguments : Option (List (String × Json))) :
    call_tool fe "get_bitcoin_tx" arguments =
      (match GetBitcoinTxParams.decode (arguments.getD []) with
       | .error e => .error (ErrorData.invalid_request ("Invalid parameters: " ++ e))
       | .ok p => wrapFetch (fetch_transaction fe p.network.api_base p.txid)) := rfl

/-- Unfolding call_tool at the get_liquid_tx branch. -/
theorem call_tool_get_liquid_tx (fe : String → Except String String)
    (arguments : Option (List (String × Json))) :
    call_tool fe "get_liquid_tx" arguments =
      (match GetLiquidTxParams.decode (arguments.getD []) with
       | .error e => .error (ErrorData.invalid_request ("Invalid parameters: " ++ e))
       | .ok p => wrapFetch (fetch_transaction fe p.network.api_base p.txid)) := rfl

/-- Unfolding call_tool at the get_bitcoin_block branch. -/
theorem call_tool_get_bitcoin_block (fe : String → Except String String)
    (arguments : Option (List (String × Json))) :
    call_tool fe "get_bitcoin_block" arguments =
      (match GetBitcoinBlockParams.decode (arguments.getD []) with
       | .error e => .error (ErrorData.invalid_request ("Invalid parameters: " ++ e))
       | .ok p => wrapFetch (fetch_block fe p.network.api_base p.hash)) := rfl

/-- Unfolding call_tool at the get_liquid_block branch. -/
theorem call_tool_get_liquid_block (fe : String → Except String String)
    (arguments : Option (List (String × Json))) :
    call_tool fe "get_liquid_block" arguments =
      (match GetLiquidBlockParams.decode (arguments.getD []) with
       | .error e => .error (ErrorData.invalid_request ("Invalid parameters: " ++ e))
       | .ok p => wrapFetch (fetch_block fe p.network.api_base p.hash)) := rfl

/-- Unfolding call_tool at the get_bitcoin_tip_height branch. -/
theorem call_tool_get_bitcoin_tip_height (fe : String → Except String String)
    (arguments : Option (List (String × Json))) :
    call_tool fe "get_bitcoin_tip_height" arguments =
      (match GetBitcoinTipHeightParams.decode (arguments.getD []) with
       | .error e => .error (ErrorData.invalid_request ("Invalid parameters: " ++ e))
       | .ok p => wrapFetch (fetch_tip_height fe p.network.api_base)) := rfl

/-- Unfolding call_tool at the get_liquid_tip_height branch. -/
theorem call_tool_get_liquid_tip_height (fe : String → Except String String)
    (arguments : Option (List (String × Json))) :
    call_tool fe "get_liquid_tip_height" arguments =
      (match GetLiquidTipHeightParams.decode (arguments.getD []) with
       | .error e => .error (ErrorData.invalid_request ("Invalid parameters: " ++ e))
       | .ok p => wrapFetch (fetch_tip_height fe p.network.api_base)) := rfl

/-- Unfolding call_tool at the get_bitcoin_mempool branch. -/
theorem call_tool_get_bitcoin_mempool (fe : String → Except String String)
    (arguments : Option (List (String × Json))) :
    call_tool fe "get_bitcoin_mempool" arguments =
      (match GetBitcoinMempoolParams.decode (arguments.getD []) with
       | .error e => .error (ErrorData.invalid_request ("Invalid parameters: " ++ e))
       | .ok p => wrapFetch (fetch_mempool fe p.network.api_base)) := rfl

/-- Unfolding call_tool at the get_liquid_mempool branch. -/
theorem call_tool_get_liquid_mempool (fe : String → Except String String)
    (arguments : Option (List (String × Json))) :
    call_tool fe "get_liquid_mempool" arguments =
      (match GetLiquidMempoolParams.decode (arguments.getD []) with
       | .error e => .error (ErrorData.invalid_request ("Invalid parameters: " ++ e))
       | .ok p => wrapFetch (fetch_mempool fe p.network.api_base)) := rfl

/-- Dispatch on a name outside the registry always reaches the final
branch: the Unknown tool invalid_request error. -/
theorem call_tool_unregistered (name : String) (h : name ∉ toolNames)
    (fe : String → Except String String)
    (arguments : Option (List (String × Json))) :
    call_tool fe name arguments =
      .error (ErrorData.invalid_request ("Unknown tool: " ++ name)) := by
  simp only [toolNames, List.mem_cons, List.not_mem_nil, or_false, not_or] at h
  obtain ⟨h1, h2, h3, h4, h5, h6, h7, h8⟩ := h
  simp only [call_tool, if_neg h1, if_neg h2, if_neg h3, if_neg h4, if_neg h5,
    if_neg h6, if_neg h7, if_neg h8]

/-- Every dispatch outcome is a success envelope, an invalid_request
failure, or an internal_error failure: no other shape escapes call_tool. -/
theorem call_tool_code_cases (fe : String → Except String String)
    (name : String) (args : Option (List (String × Json))) :
    (∃ r, call_tool fe name args = .ok r) ∨
    (∃ m, call_tool fe name args = .error (ErrorData.invalid_request m)) ∨
    (∃ m, call_tool fe name args = .error (ErrorData.internal_error m)) := by
  by_cases h1 : name = "get_bitcoin_tx"
  · subst h1
    rw [call_tool_get_bitcoin_tx]
    cases hd : GetBitcoinTxParams.decode (args.getD []) with
    | error e => exact .inr (.inl ⟨_, rfl⟩)
    | ok p =>
      cases hf : fetch_transaction fe p.network.api_base p.txid with
      | error e => exact .inr (.inr ⟨e, by simp [wrapFetch, hf]⟩)
      | ok r => exact .inl ⟨CallToolResult.success [Content.text r], by simp [wrapFetch, hf]⟩
  by_cases h2 : name = "get_liquid_tx"
  · subst h2
    rw [call_tool_get_liquid_tx]
    cases hd : GetLiquidTxParams.decode (args.getD []) with
    | error e => exact .inr (.inl ⟨_, rfl⟩)
    | ok p =>
      cases hf : fetch_transaction fe p.network.api_base p.txid with
      | error e => exact .inr (.inr ⟨e, by simp [wrapFetch, hf]⟩)
      | ok r => exact .inl ⟨CallToolResult.success [Content.text r], by simp [wrapFetch, hf]⟩
  by_cases h3 : name = "get_bitcoin_block"
  · subst h3
    rw [call_tool_get_bitcoin_block]
    cases hd : GetBitcoinBlockParams.decode (args.getD []) with
    | error e => exact .inr (.inl ⟨_, rfl⟩)
    | ok p =>
      cases hf : fetch_block fe p.network.api_base p.hash with
      | error e => exact .inr (.inr ⟨e, by simp [wrapFetch, hf]⟩)
      | ok r => exact .inl ⟨CallToolResult.success [Content.text r], by simp [wrapFetch, hf]⟩
  by_cases h4 : name = "get_liquid_block"
  · subst h4
    rw [call_tool_get_liquid_block]
    cases hd : GetLiquidBlockParams.decode (args.getD []) with
    | error e => exact .inr (.inl ⟨_, rfl⟩)
    | ok p =>
      cases hf : fetch_block fe p.network.api_base p.hash with
      | error e => exact .inr (.inr ⟨e, by simp [wrapFetch, hf]⟩)
      | ok r => exact .inl ⟨CallToolResult.success [Content.text r], by simp [wrapFetch, hf]⟩
  by_cases h5 : name = "get_bitcoin_tip_height"
  · subst h5
    rw [call_tool_get_bitcoin_tip_height]
    cases hd : GetBitcoinTipHeightParams.decode (args.getD []) with
    | error e => exact .inr (.inl ⟨_, rfl⟩)
    | ok p =>
      cases hf : fetch_tip_height fe p.network.api_base with
      | error e => exact .inr (.inr ⟨e, by simp [wrapFetch, hf]⟩)
      | ok r => exact .inl ⟨CallToolResult.success [Content.text r], by simp [wrapFetch, hf]⟩
  by_cases h6 : name = "get_liquid_tip_height"
  · subst h6
    rw [call_tool_get_liquid_tip_height]
    cases hd : GetLiquidTipHeightParams.decode (args.getD []) with
    | error e => exact .inr (.inl ⟨_, rfl⟩)
    | ok p =>
      cases hf : fetch_tip_height fe p.network.api_base with
      | error e => exact .inr (.inr ⟨e, by simp [wrapFetch, hf]⟩)
      | ok r => exact .inl ⟨CallToolResult.success [Content.text r], by simp [wrapFetch, hf]⟩
  by_cases h7 : name = "get_bitcoin_mempool"
  · subst h7
    rw [call_tool_get_bitcoin_mempool]
    cases hd : GetBitcoinMempoolParams.decode (args.getD []) with
    | error e => exact .inr (.inl ⟨_, rfl⟩)
    | ok p =>
      cases hf : fetch_mempool fe p.network.api_base with
      | error e => exact .inr (.inr ⟨e, by simp [wrapFetch, hf]⟩)
      | ok r => exact .inl ⟨CallToolResult.success [Content.text r], by simp [wrapFetch, hf]⟩
  by_cases h8 : name = "get_liquid_mempool"
  · subst h8
    rw [call_tool_get_liquid_mempool]
    cases hd : GetLiquidMempoolParams.decode (args.getD []) with
    | error e => exact .inr (.inl ⟨_, rfl⟩)
    | ok p =>
      cases hf : fetch_mempool fe p.network.api_base with
      | error e => exact .inr (.inr ⟨e, by simp [wrapFetch, hf]⟩)
      | ok r => exact .inl ⟨CallToolResult.success [Content.text r], by simp [wrapFetch, hf]⟩
  have hn : name ∉ toolNames := by
    simp only [toolNames, List.mem_cons, List.not_mem_nil, or_false, not_or]
    exact ⟨h1, h2, h3, h4, h5, h6, h7, h8⟩
  exact .inr (.inl ⟨_, call_tool_unregistered name hn fe args⟩)

/-! ## Claim theorems -/

/-- Claim C1: for every invoke-tool request whose tool name is not one of
the eight registered names, call_tool returns an error envelope, never a
success, whose message names exactly the requested tool name, for every
argument payload and every backend. -/
theorem call_tool_unknown_tool_error (name : String) (h : name ∉ toolNames)
    (fe : String → Except String String)
    (arguments : Option (List (String × Json))) :
    call_tool fe name arguments =
      .error (ErrorData.invalid_request ("Unknown tool: " ++ name)) :=
  call_tool_unregistered name h fe arguments

/-- Closed instance of claim C1 at the unregistered name frobnicate. -/
theorem call_tool_unknown_tool_error_witness :
    "frobnicate" ∉ toolNames ∧
    call_tool (fun _ => .ok "") "frobnicate" none =
      .error (ErrorData.invalid_request ("Unknown tool: " ++ "frobnicate")) :=
  ⟨by decide,
   call_tool_unknown_tool_error "frobnicate" (by decide) (fun _ => .ok "") none⟩

/-- Claim C2: for every Liquid-family tool, a payload whose network field
carries a string tag outside the Liquid legal set is rejected at decode
time with an invalid-parameters failure whose content does not depend on
the backend, so no address is ever resolved. -/
theorem call_tool_liquid_illegal_network (l : List (String × Json)) (t : String)
    (hg : getField l "network" = some (Json.str t))
    (hm : t ≠ "mainnet") (ht : t ≠ "testnet") :
    (∃ m, ∀ fe, call_tool fe "get_liquid_tx" (some l) =
      .error (ErrorData.invalid_request ("Invalid parameters: " ++ m))) ∧
    (∃ m, ∀ fe, call_tool fe "get_liquid_block" (some l) =
      .error (ErrorData.invalid_request ("Invalid parameters: " ++ m))) ∧
    (∃ m, ∀ fe, call_tool fe "get_liquid_tip_height" (some l) =
      .error (ErrorData.invalid_request ("Invalid parameters: " ++ m))) ∧
    (∃ m, ∀ fe, call_tool fe "get_liquid_mempool" (some l) =
      .error (ErrorData.invalid_request ("Invalid parameters: " ++ m))) := by
  have hbad : decodeLiquidNetwork (Json.str t) =
      .error ("unknown variant `" ++ t ++ "`, expected `mainnet` or `testnet`") := by
    simp [decodeLiquidNetwork, hm, ht]
  refine ⟨?_, ?_, ?_, ?_⟩
  · obtain ⟨e2, he2⟩ := decodeFields2_firstbad "txid" "network" decodeString
      decodeLiquidNetwork (by decide) l (Json.str t) _ hg hbad none none
    refine ⟨e2, fun fe => ?_⟩
    rw [call_tool_get_liquid_tx]
    simp [GetLiquidTxParams.decode, he2]
  · obtain ⟨e2, he2⟩ := decodeFields2_firstbad "hash" "network" decodeString
      decodeLiquidNetwork (by decide) l (Json.str t) _ hg hbad none none
    refine ⟨e2, fun fe => ?_⟩
    rw [call_tool_get_liquid_block]
    simp [GetLiquidBlockParams.decode, he2]
  · obtain ⟨e2, he2⟩ := decodeFields1_firstbad "network"
      decodeLiquidNetwork l (Json.str t) _ hg hbad none
    refine ⟨e2, fun fe => ?_⟩
    rw [call_tool_get_liquid_tip_height]
    simp [GetLiquidTipHeightParams.decode, he2]
  · obtain ⟨e2, he2⟩ := decodeFields1_firstbad "network"
      decodeLiquidNetwork l (Json.str t) _ hg hbad none
    refine ⟨e2, fun fe => ?_⟩
    rw [call_tool_get_liquid_mempool]
    simp [GetLiquidMempoolParams.decode, he2]

/-- Closed instance of claim C2: the Bitcoin-only tag signet against the
four Liquid tools. -/
theorem call_tool_liquid_illegal_network_witness :
    (∃ m, ∀ fe, call_tool fe "get_liquid_tx" (some [("network", Json.str "signet")]) =
      .error (ErrorData.invalid_request ("Invalid parameters: " ++ m))) ∧
    (∃ m, ∀ fe, call_tool fe "get_liquid_tip_height" (some [("network", Json.str "signet")]) =
      .error (ErrorData.invalid_request ("Invalid parameters: " ++ m))) := by
  have h := call_tool_liquid_illegal_network [("network", Json.str "signet")] "signet"
    rfl (by decide) (by decide)
  exact ⟨h.1, h.2.2.1⟩

/-- Claim C3: for every tool, a payload that omits the optional network
field (and supplies the required field as a string where there is one)
decodes to the default Mainnet variant, and the handler is invoked
against the family mainnet base address. -/
theorem call_tool_default_network (fe : String → Except String String)
    (l : List (String × Json)) (s : String) :
    (l.filter (fun p => p.1 == "txid" || p.1 == "network") = [("txid", Json.str s)] →
      GetBitcoinTxParams.decode l = .ok ⟨s, BitcoinNetwork.Mainnet⟩ ∧
      GetLiquidTxParams.decode l = .ok ⟨s, LiquidNetwork.Mainnet⟩ ∧
      call_tool fe "get_bitcoin_tx" (some l) =
        wrapFetch (fe (BITCOIN_MAINNET_API ++ "/tx/" ++ s)) ∧
      call_tool fe "get_liquid_tx" (some l) =
        wrapFetch (fe (LIQUID_MAINNET_API ++ "/tx/" ++ s))) ∧
    (l.filter (fun p => p.1 == "hash" || p.1 == "network") = [("hash", Json.str s)] →
      GetBitcoinBlockParams.decode l = .ok ⟨s, BitcoinNetwork.Mainnet⟩ ∧
      GetLiquidBlockParams.decode l = .ok ⟨s, LiquidNetwork.Mainnet⟩ ∧
      call_tool fe "get_bitcoin_block" (some l) =
        wrapFetch (fe (BITCOIN_MAINNET_API ++ "/block/" ++ s)) ∧
      call_tool fe "get_liquid_block" (some l) =
        wrapFetch (fe (LIQUID_MAINNET_API ++ "/block/" ++ s))) ∧
    (l.filter (fun p => p.1 == "network") = [] →
      GetBitcoinTipHeightParams.decode l = .ok ⟨BitcoinNetwork.Mainnet⟩ ∧
      GetLiquidTipHeightParams.decode l = .ok ⟨LiquidNetwork.Mainnet⟩ ∧
      GetBitcoinMempoolParams.decode l = .ok ⟨BitcoinNetwork.Mainnet⟩ ∧
      GetLiquidMempoolParams.decode l = .ok ⟨LiquidNetwork.Mainnet⟩ ∧
      call_tool fe "get_bitcoin_tip_height" (some l) =
        wrapFetch (fe (BITCOIN_MAINNET_API ++ "/blocks/tip/height")) ∧
      call_tool fe "get_liquid_tip_height" (some l) =
        wrapFetch (fe (LIQUID_MAINNET_API ++ "/blocks/tip/height")) ∧
      call_tool fe "get_bitcoin_mempool" (some l) =
        wrapFetch (fe (BITCOIN_MAINNET_API ++ "/mempool")) ∧
      call_tool fe "get_liquid_mempool" (some l) =
        wrapFetch (fe (LIQUID_MAINNET_API ++ "/mempool"))) := by
  refine ⟨fun hf => ?_, fun hf => ?_, fun hf => ?_⟩
  · have hb : GetBitcoinTxParams.decode l = .ok ⟨s, BitcoinNetwork.Mainnet⟩ := by
      unfold GetBitcoinTxParams.decode
      rw [decodeFields2_only_first "txid" "network" decodeString decodeBitcoinNetwork l
        (Json.str s) s hf rfl]
      rfl
    have hl : GetLiquidTxParams.decode l = .ok ⟨s, LiquidNetwork.Mainnet⟩ := by
      unfold GetLiquidTxParams.decode
      rw [decodeFields2_only_first "txid" "network" decodeString decodeLiquidNetwork l
        (Json.str s) s hf rfl]
      rfl
    refine ⟨hb, hl, ?_, ?_⟩
    · rw [call_tool_get_bitcoin_tx]
      simp [hb, fetch_transaction, BitcoinNetwork.api_base]
    · rw [call_tool_get_liquid_tx]
      simp [hl, fetch_transaction, LiquidNetwork.api_base]
  · have hb : GetBitcoinBlockParams.decode l = .ok ⟨s, BitcoinNetwork.Mainnet⟩ := by
      unfold GetBitcoinBlockParams.decode
      rw [decodeFields2_only_first "hash" "network" decodeString decodeBitcoinNetwork l
        (Json.str s) s hf rfl]
      rfl
    have hl : GetLiquidBlockParams.decode l = .ok ⟨s, LiquidNetwork.Mainnet⟩ := by
      unfold GetLiquidBlockParams.decode
      rw [decodeFields2_only_first "hash" "network" decodeString decodeLiquidNetwork l
        (Json.str s) s hf rfl]
      rfl
    refine ⟨hb, hl, ?_, ?_⟩
    · rw [call_tool_get_bitcoin_block]
      simp [hb, fetch_block, BitcoinNetwork.api_base]
    · rw [call_tool_get_liquid_block]
      simp [hl, fetch_block, LiquidNetwork.api_base]
  · have h1 : GetBitcoinTipHeightParams.decode l = .ok ⟨BitcoinNetwork.Mainnet⟩ := by
      unfold GetBitcoinTipHeightParams.decode
      rw [decodeFields1_none "network" decodeBitcoinNetwork l none hf]
      rfl
    have h2 : GetLiquidTipHeightParams.decode l = .ok ⟨LiquidNetwork.Mainnet⟩ := by
      unfold GetLiquidTipHeightParams.decode
      rw [decodeFields1_none "network" decodeLiquidNetwork l none hf]
      rfl
    have h3 : GetBitcoinMempoolParams.decode l = .ok ⟨BitcoinNetwork.Mainnet⟩ := by
      unfold GetBitcoinMempoolParams.decode
      rw [decodeFields1_none "network" decodeBitcoinNetwork l none hf]
      rfl
    have h4 : GetLiquidMempoolParams.decode l = .ok ⟨LiquidNetwork.Mainnet⟩ := by
      unfold GetLiquidMempoolParams.decode
      rw [decodeFields1_none "network" decodeLiquidNetwork l none hf]
      rfl
    refine ⟨h1, h2, h3, h4, ?_, ?_, ?_, ?_⟩
    · rw [call_tool_get_bitcoin_tip_height]
      simp [h1, fetch_tip_height, BitcoinNetwork.api_base]
    · rw [call_tool_get_liquid_tip_height]
      simp [h2, fetch_tip_height, LiquidNetwork.api_base]
    · rw [call_tool_get_bitcoin_mempool]
      simp [h3, fetch_mempool, BitcoinNetwork.api_base]
    · rw [call_tool_get_liquid_mempool]
      simp [h4, fetch_mempool, LiquidNetwork.api_base]

/-- Closed instance of claim C3: a payload with the required txid, an
unrecognized extra field and no network field. -/
theorem call_tool_default_network_witness :
    GetBitcoinTxParams.decode [("txid", Json.str "abc"), ("extra", Json.null)] =
      .ok ⟨"abc", BitcoinNetwork.Mainnet⟩ ∧
    call_tool (fun u => .ok u) "get_bitcoin_tip_height"
        (some [("txid", Json.str "abc"), ("extra", Json.null)]) =
      wrapFetch ((fun u => Except.ok u) (BITCOIN_MAINNET_API ++ "/blocks/tip/height")) :=
  ⟨((call_tool_default_network (fun u => .ok u)
      [("txid", Json.str "abc"), ("extra", Json.null)] "abc").1 rfl).1,
   ((call_tool_default_network (fun u => .ok u)
      [("txid", Json.str "abc"), ("extra", Json.null)] "abc").2.2 rfl).2.2.2.2.1⟩

/-- Claim C4 counterexample: this payload is missing the required txid
field, yet the failure message reports the unknown network variant and
never names the missing field, refuting the claim as universally stated. -/
theorem missing_field_message_counterexample :
    call_tool (fun _ => .ok "") "get_bitcoin_tx" (some [("network", Json.str "bogus")]) =
      .error (ErrorData.invalid_request
        ("Invalid parameters: unknown variant `bogus`, expected one of `mainnet`, `testnet`, `signet`")) ∧
    ¬ ("txid".toList <:+:
      ("Invalid parameters: unknown variant `bogus`, expected one of `mainnet`, `testnet`, `signet`").toList) := by
  exact ⟨rfl, by decide⟩

/-- Claim C4 (amended): for every tool with a required field and every
payload missing that field whose present recognized fields all decode
successfully, the invalid-parameters failure names the missing field;
and for every tool, a payload supplying its required field as a string
with the optional network field omitted decodes with the declared
defaults. -/
theorem call_tool_missing_required_field (fe : String → Except String String)
    (l : List (String × Json)) :
    (l.filter (fun p => p.1 == "txid" || p.1 == "network") = [] →
      call_tool fe "get_bitcoin_tx" (some l) =
        .error (ErrorData.invalid_request "Invalid parameters: missing field `txid`") ∧
      call_tool fe "get_liquid_tx" (some l) =
        .error (ErrorData.invalid_request "Invalid parameters: missing field `txid`")) ∧
    (l.filter (fun p => p.1 == "hash" || p.1 == "network") = [] →
      call_tool fe "get_bitcoin_block" (some l) =
        .error (ErrorData.invalid_request "Invalid parameters: missing field `hash`") ∧
      call_tool fe "get_liquid_block" (some l) =
        .error (ErrorData.invalid_request "Invalid parameters: missing field `hash`")) ∧
    (∀ v b, l.filter (fun p => p.1 == "txid" || p.1 == "network") = [("network", v)] →
      decodeBitcoinNetwork v = .ok b →
      call_tool fe "get_bitcoin_tx" (some l) =
        .error (ErrorData.invalid_request "Invalid parameters: missing field `txid`")) ∧
    (∀ v b, l.filter (fun p => p.1 == "txid" || p.1 == "network") = [("network", v)] →
      decodeLiquidNetwork v = .ok b →
      call_tool fe "get_liquid_tx" (some l) =
        .error (ErrorData.invalid_request "Invalid parameters: missing field `txid`")) ∧
    (∀ v b, l.filter (fun p => p.1 == "hash" || p.1 == "network") = [("network", v)] →
      decodeBitcoinNetwork v = .ok b →
      call_tool fe "get_bitcoin_block" (some l) =
        .error (ErrorData.invalid_request "Invalid parameters: missing field `hash`")) ∧
    (∀ v b, l.filter (fun p => p.1 == "hash" || p.1 == "network") = [("network", v)] →
      decodeLiquidNetwork v = .ok b →
      call_tool fe "get_liquid_block" (some l) =
        .error (ErrorData.invalid_request "Invalid parameters: missing field `hash`")) ∧
    (∀ s, l.filter (fun p => p.1 == "txid" || p.1 == "network") = [("txid", Json.str s)] →
      GetBitcoinTxParams.decode l = .ok ⟨s, BitcoinNetwork.Mainnet⟩ ∧
      GetLiquidTxParams.decode l = .ok ⟨s, LiquidNetwork.Mainnet⟩) ∧
    (∀ s, l.filter (fun p => p.1 == "hash" || p.1 == "network") = [("hash", Json.str s)] →
      GetBitcoinBlockParams.decode l = .ok ⟨s, BitcoinNetwork.Mainnet⟩ ∧
      GetLiquidBlockParams.decode l = .ok ⟨s, LiquidNetwork.Mainnet⟩) ∧
    (l.filter (fun p => p.1 == "network") = [] →
      GetBitcoinTipHeightParams.decode l = .ok ⟨BitcoinNetwork.Mainnet⟩ ∧
      GetLiquidTipHeightParams.decode l = .ok ⟨LiquidNetwork.Mainnet⟩ ∧
      GetBitcoinMempoolParams.decode l = .ok ⟨BitcoinNetwork.Mainnet⟩ ∧
      GetLiquidMempoolParams.decode l = .ok ⟨LiquidNetwork.Mainnet⟩) := by
  refine ⟨fun hf => ?_, fun hf => ?_, fun v b hf hd => ?_, fun v b hf hd => ?_,
    fun v b hf hd => ?_, fun v b hf hd => ?_, fun s hf => ?_, fun s hf => ?_, fun hf => ?_⟩
  · have hb : GetBitcoinTxParams.decode l = .error "missing field `txid`" := by
      unfold GetBitcoinTxParams.decode
      rw [decodeFields2_none "txid" "network" decodeString decodeBitcoinNetwork l
        none none hf]
    have hl : GetLiquidTxParams.decode l = .error "missing field `txid`" := by
      unfold GetLiquidTxParams.decode
      rw [decodeFields2_none "txid" "network" decodeString decodeLiquidNetwork l
        none none hf]
    constructor
    · rw [call_tool_get_bitcoin_tx]
      simp [hb]
    · rw [call_tool_get_liquid_tx]
      simp [hl]
  · have hb : GetBitcoinBlockParams.decode l = .error "missing field `hash`" := by
      unfold GetBitcoinBlockParams.decode
      rw [decodeFields2_none "hash" "network" decodeString decodeBitcoinNetwork l
        none none hf]
    have hl : GetLiquidBlockParams.decode l = .error "missing field `hash`" := by
      unfold GetLiquidBlockParams.decode
      rw [decodeFields2_none "hash" "network" decodeString decodeLiquidNetwork l
        none none hf]
    constructor
    · rw [call_tool_get_bitcoin_block]
      simp [hb]
    · rw [call_tool_get_liquid_block]
      simp [hl]
  · have hb : GetBitcoinTxParams.decode l = .error "missing field `txid`" := by
      unfold GetBitcoinTxParams.decode
      rw [decodeFields2_only_second "txid" "network" decodeString decodeBitcoinNetwork l
        v b rfl hf hd]
    rw [call_tool_get_bitcoin_tx]
    simp [hb]
  · have hl : GetLiquidTxParams.decode l = .error "missing field `txid`" := by
      unfold GetLiquidTxParams.decode
      rw [decodeFields2_only_second "txid" "network" decodeString decodeLiquidNetwork l
        v b rfl hf hd]
    rw [call_tool_get_liquid_tx]
    simp [hl]
  · have hb : GetBitcoinBlockParams.decode l = .error "missing field `hash`" := by
      unfold GetBitcoinBlockParams.decode
      rw [decodeFields2_only_second "hash" "network" decodeString decodeBitcoinNetwork l
        v b rfl hf hd]
    rw [call_tool_get_bitcoin_block]
    simp [hb]
  · have hl : GetLiquidBlockParams.decode l = .error "missing field `hash`" := by
      unfold GetLiquidBlockParams.decode
      rw [decodeFields2_only_second "hash" "network" decodeString decodeLiquidNetwork l
        v b rfl hf hd]
    rw [call_tool_get_liquid_block]
    simp [hl]
  · constructor
    · unfold GetBitcoinTxParams.decode
      rw [decodeFields2_only_first "txid" "network" decodeString decodeBitcoinNetwork l
        (Json.str s) s hf rfl]
      rfl
    · unfold GetLiquidTxParams.decode
      rw [decodeFields2_only_first "txid" "network" decodeString decodeLiquidNetwork l
        (Json.str s) s hf rfl]
      rfl
  · constructor
    · unfold GetBitcoinBlockParams.decode
      rw [decodeFields2_only_first "hash" "network" decodeString decodeBitcoinNetwork l
        (Json.str s) s hf rfl]
      rfl
    · unfold GetLiquidBlockParams.decode
      rw [decodeFields2_only_first "hash" "network" decodeString decodeLiquidNetwork l
        (Json.str s) s hf rfl]
      rfl
  · refine ⟨?_, ?_, ?_, ?_⟩
    · unfold GetBitcoinTipHeightParams.decode
      rw [decodeFields1_none "network" decodeBitcoinNetwork l none hf]
      rfl
    · unfold GetLiquidTipHeightParams.decode
      rw [decodeFields1_none "network" decodeLiquidNetwork l none hf]
      rfl
    · unfold GetBitcoinMempoolParams.decode
      rw [decodeFields1_none "network" decodeBitcoinNetwork l none hf]
      rfl
    · unfold GetLiquidMempoolParams.decode
      rw [decodeFields1_none "network" decodeLiquidNetwork l none hf]
      rfl

/-- Closed instance of the amended claim C4: payloads carrying only a
legal network tag fail naming the missing txid or hash field, for a
Bitcoin tool and a Liquid tool. -/
theorem call_tool_missing_required_field_witness :
    call_tool (fun _ => .ok "") "get_bitcoin_tx" (some [("network", Json.str "testnet")]) =
      .error (ErrorData.invalid_request "Invalid parameters: missing field `txid`") ∧
    call_tool (fun _ => .ok "") "get_liquid_block" (some [("network", Json.str "testnet")]) =
      .error (ErrorData.invalid_request "Invalid parameters: missing field `hash`") :=
  ⟨(call_tool_missing_required_field (fun _ => .ok "")
      [("network", Json.str "testnet")]).2.2.1 (Json.str "testnet")
      BitcoinNetwork.Testnet rfl rfl,
   (call_tool_missing_required_field (fun _ => .ok "")
      [("network", Json.str "testnet")]).2.2.2.2.2.1 (Json.str "testnet")
      LiquidNetwork.Testnet rfl rfl⟩

/-- Claim C5 counterexample: an unknown-tool failure and an
invalid-parameters failure carry the same error code (-32600), so the
two cases are not distinguished by kind, only by message. -/
theorem error_kind_counterexample :
    call_tool (fun _ => .ok "") "no_such_tool" none =
      .error (ErrorData.invalid_request ("Unknown tool: " ++ "no_such_tool")) ∧
    call_tool (fun _ => .ok "") "get_bitcoin_tx" (some []) =
      .error (ErrorData.invalid_request "Invalid parameters: missing field `txid`") ∧
    (ErrorData.invalid_request ("Unknown tool: " ++ "no_such_tool")).code =
      (ErrorData.invalid_request "Invalid parameters: missing field `txid`").code := by
  exact ⟨rfl, rfl, rfl⟩

/-- Claim C5 (amended): every dispatch failure carries one of exactly two
codes: -32600 (invalid request, covering both unknown tool and invalid
parameters) or -32603 (internal handler failure); the kinds separate
request-validity failures from handler failures, while unknown-tool and
invalid-parameters failures share -32600 and differ only in message. -/
theorem call_tool_error_code_classes (fe : String → Except String String)
    (name : String) (args : Option (List (String × Json))) :
    ((∃ r, call_tool fe name args = .ok r) ∨
     (∃ m, call_tool fe name args = .error ⟨-32600, m⟩) ∨
     (∃ m, call_tool fe name args = .error ⟨-32603, m⟩)) ∧
    (name ∉ toolNames →
      call_tool fe name args = .error ⟨-32600, "Unknown tool: " ++ name⟩) ∧
    (∀ m, call_tool (fun _ => .error m) "get_bitcoin_mempool" (some []) =
      .error ⟨-32603, m⟩) ∧
    ((-32600 : Int) ≠ -32603) := by
  refine ⟨?_, fun hn => ?_, fun m => rfl, by decide⟩
  · rcases call_tool_code_cases fe name args with h | ⟨m, hm⟩ | ⟨m, hm⟩
    · exact .inl h
    · exact .inr (.inl ⟨m, hm⟩)
    · exact .inr (.inr ⟨m, hm⟩)
  · exact call_tool_unregistered name hn fe args

/-- Closed instance of the amended claim C5: a concrete unknown-tool
failure with code -32600 and a concrete handler failure with code -32603. -/
theorem call_tool_error_code_classes_witness :
    call_tool (fun _ => .ok "") "frob" none =
      .error ⟨-32600, "Unknown tool: " ++ "frob"⟩ ∧
    call_tool (fun _ => .error "boom") "get_bitcoin_mempool" (some []) =
      .error ⟨-32603, "boom"⟩ :=
  ⟨(call_tool_error_code_classes (fun _ => .ok "") "frob" none).2.1 (by decide),
   (call_tool_error_code_classes (fun _ => .ok "") "frob" none).2.2.1 "boom"⟩

/-- Claim C6: list_tools ignores its input and always returns the same
ordered catalog of the eight registered tools, each carrying a name, a
description and a schema, with no pagination cursor. -/
theorem list_tools_fixed_catalog (p : Option PaginatedRequestParam) :
    list_tools p = list_tools none ∧
    (list_tools p).toOption.map (fun r => r.tools.map Tool.name) = some toolNames ∧
    (list_tools p).toOption.map (fun r => r.next_cursor) = some none ∧
    (list_tools p).toOption.map
      (fun r => r.tools.all
        (fun t => t.description.isSome && !t.name.isEmpty && !t.input_schema.isEmpty)) =
      some true :=
  ⟨rfl, rfl, rfl, rfl⟩

/-- Claim C7: fields not declared in a tool's parameter shape are ignored:
inserting an entry with an undeclared key anywhere in the payload leaves
the dispatch result unchanged, for every tool. -/
theorem call_tool_ignores_unknown_fields (fe : String → Except String String)
    (k : String) (v : Json) (l1 l2 : List (String × Json)) :
    ((k == "txid") = false → (k == "network") = false →
      call_tool fe "get_bitcoin_tx" (some (l1 ++ (k, v) :: l2)) =
        call_tool fe "get_bitcoin_tx" (some (l1 ++ l2)) ∧
      call_tool fe "get_liquid_tx" (some (l1 ++ (k, v) :: l2)) =
        call_tool fe "get_liquid_tx" (some (l1 ++ l2))) ∧
    ((k == "hash") = false → (k == "network") = false →
      call_tool fe "get_bitcoin_block" (some (l1 ++ (k, v) :: l2)) =
        call_tool fe "get_bitcoin_block" (some (l1 ++ l2)) ∧
      call_tool fe "get_liquid_block" (some (l1 ++ (k, v) :: l2)) =
        call_tool fe "get_liquid_block" (some (l1 ++ l2))) ∧
    ((k == "network") = false →
      call_tool fe "get_bitcoin_tip_height" (some (l1 ++ (k, v) :: l2)) =
        call_tool fe "get_bitcoin_tip_height" (some (l1 ++ l2)) ∧
      call_tool fe "get_liquid_tip_height" (some (l1 ++ (k, v) :: l2)) =
        call_tool fe "get_liquid_tip_height" (some (l1 ++ l2)) ∧
      call_tool fe "get_bitcoin_mempool" (some (l1 ++ (k, v) :: l2)) =
        call_tool fe "get_bitcoin_mempool" (some (l1 ++ l2)) ∧
      call_tool fe "get_liquid_mempool" (some (l1 ++ (k, v) :: l2)) =
        call_tool fe "get_liquid_mempool" (some (l1 ++ l2))) := by
  refine ⟨fun hk1 hk2 => ?_, fun hk1 hk2 => ?_, fun hk2 => ?_⟩
  · have hfil : (l1 ++ (k, v) :: l2).filter (fun p => p.1 == "txid" || p.1 == "network") =
        (l1 ++ l2).filter (fun p => p.1 == "txid" || p.1 == "network") := by
      simp [List.filter_append, List.filter_cons, hk1, hk2]
    have hb : GetBitcoinTxParams.decode (l1 ++ (k, v) :: l2) =
        GetBitcoinTxParams.decode (l1 ++ l2) := by
      unfold GetBitcoinTxParams.decode
      rw [decodeFields2_filter, hfil, ← decodeFields2_filter]
    have hl : GetLiquidTxParams.decode (l1 ++ (k, v) :: l2) =
        GetLiquidTxParams.decode (l1 ++ l2) := by
      unfold GetLiquidTxParams.decode
      rw [decodeFields2_filter, hfil, ← decodeFields2_filter]
    constructor
    · rw [call_tool_get_bitcoin_tx, call_tool_get_bitcoin_tx]
      simp only [Option.getD_some, hb]
    · rw [call_tool_get_liquid_tx, call_tool_get_liquid_tx]
      simp only [Option.getD_some, hl]
  · have hfil : (l1 ++ (k, v) :: l2).filter (fun p => p.1 == "hash" || p.1 == "network") =
        (l1 ++ l2).filter (fun p => p.1 == "hash" || p.1 == "network") := by
      simp [List.filter_append, List.filter_cons, hk1, hk2]
    have hb : GetBitcoinBlockParams.decode (l1 ++ (k, v) :: l2) =
        GetBitcoinBlockParams.decode (l1 ++ l2) := by
      unfold GetBitcoinBlockParams.decode
      rw [decodeFields2_filter, hfil, ← decodeFields2_filter]
    have hl : GetLiquidBlockParams.decode (l1 ++ (k, v) :: l2) =
        GetLiquidBlockParams.decode (l1 ++ l2) := by
      unfold GetLiquidBlockParams.decode
      rw [decodeFields2_filter, hfil, ← decodeFields2_filter]
    constructor
    · rw [call_tool_get_bitcoin_block, call_tool_get_bitcoin_block]
      simp only [Option.getD_some, hb]
    · rw [call_tool_get_liquid_block, call_tool_get_liquid_block]
      simp only [Option.getD_some, hl]
  · have hfil : (l1 ++ (k, v) :: l2).filter (fun p => p.1 == "network") =
        (l1 ++ l2).filter (fun p => p.1 == "network") := by
      simp [List.filter_append, List.filter_cons, hk2]
    have h1 : GetBitcoinTipHeightParams.decode (l1 ++ (k, v) :: l2) =
        GetBitcoinTipHeightParams.decode (l1 ++ l2) := by
      unfold GetBitcoinTipHeightParams.decode
      rw [decodeFields1_filter, hfil, ← decodeFields1_filter]
    have h2 : GetLiquidTipHeightParams.decode (l1 ++ (k, v) :: l2) =
        GetLiquidTipHeightParams.decode (l1 ++ l2) := by
      unfold GetLiquidTipHeightParams.decode
      rw [decodeFields1_filter, hfil, ← decodeFields1_filter]
    have h3 : GetBitcoinMempoolParams.decode (l1 ++ (k, v) :: l2) =
        GetBitcoinMempoolParams.decode (l1 ++ l2) := by
      unfold GetBitcoinMempoolParams.decode
      rw [decodeFields1_filter, hfil, ← decodeFields1_filter]
    have h4 : GetLiquidMempoolParams.decode (l1 ++ (k, v) :: l2) =
        GetLiquidMempoolParams.decode (l1 ++ l2) := by
      unfold GetLiquidMempoolParams.decode
      rw [decodeFields1_filter, hfil, ← decodeFields1_filter]
    refine ⟨?_, ?_, ?_, ?_⟩
    · rw [call_tool_get_bitcoin_tip_height, call_tool_get_bitcoin_tip_height]
      simp only [Option.getD_some, h1]
    · rw [call_tool_get_liquid_tip_height, call_tool_get_liquid_tip_height]
      simp only [Option.getD_some, h2]
    · rw [call_tool_get_bitcoin_mempool, call_tool_get_bitcoin_mempool]
      simp only [Option.getD_some, h3]
    · rw [call_tool_get_liquid_mempool, call_tool_get_liquid_mempool]
      simp only [Option.getD_some, h4]

/-- Closed instance of claim C7: inserting a comment field before the
txid entry changes nothing. -/
theorem call_tool_ignores_unknown_fields_witness :
    call_tool (fun u => .ok u) "get_bitcoin_tx"
        (some ([] ++ ("comment", Json.bool true) :: [("txid", Json.str "t")])) =
      call_tool (fun u => .ok u) "get_bitcoin_tx" (some ([] ++ [("txid", Json.str "t")])) ∧
    call_tool (fun u => .ok u) "get_liquid_mempool"
        (some ([] ++ ("comment", Json.bool true) :: [("txid", Json.str "t")])) =
      call_tool (fun u => .ok u) "get_liquid_mempool" (some ([] ++ [("txid", Json.str "t")])) :=
  ⟨((call_tool_ignores_unknown_fields (fun u => .ok u) "comment" (Json.bool true)
      [] [("txid", Json.str "t")]).1 rfl rfl).1,
   ((call_tool_ignores_unknown_fields (fun u => .ok u) "comment" (Json.bool true)
      [] [("txid", Json.str "t")]).2.2 rfl).2.2.2⟩

/-- Claim C8: api_base returns a non-empty address on every legal
(family, variant) pair, and in each family the Testnet address differs
from the default Mainnet address. -/
theorem api_base_total_nonempty_distinct :
    (∀ n : BitcoinNetwork, n.api_base ≠ "") ∧
    (∀ n : LiquidNetwork, n.api_base ≠ "") ∧
    BitcoinNetwork.Testnet.api_base ≠ BitcoinNetwork.Mainnet.api_base ∧
    LiquidNetwork.Testnet.api_base ≠ LiquidNetwork.Mainnet.api_base := by
  refine ⟨fun n => ?_, fun n => ?_, ?_, ?_⟩
  · cases n <;> decide
  · cases n <;> decide
  · decide
  · decide

/-- Claim C9: schema generation is deterministic: every registered shape
produces a schema document, and any two generations for the same shape
agree, including their serialized byte form. -/
theorem make_schema_deterministic (s : ShapeDesc) (hs : s ∈ registeredShapes) :
    (∃ doc, make_schema s = .ok doc) ∧
    (∀ doc doc2, make_schema s = .ok doc → make_schema s = .ok doc2 →
      doc = doc2 ∧ serialize (Json.obj doc) = serialize (Json.obj doc2)) := by
  constructor
  · fin_cases hs <;> exact ⟨_, rfl⟩
  · intro doc doc2 h h2
    rw [h] at h2
    injection h2 with h3
    subst h3
    exact ⟨rfl, rfl⟩

/-- Closed instance of claim C9 at the first registered shape. -/
theorem make_schema_deterministic_witness :
    (make_schema getBitcoinTxShape).isOk = true := by
  obtain ⟨doc, hd⟩ := (make_schema_deterministic getBitcoinTxShape
    (by simp [registeredShapes])).1
  rw [hd]
  rfl

/-- Claim C10: an absent arguments object behaves exactly like the empty
object: the all-optional tools decode with every default and reach the
mainnet endpoint, while the tools with a required field fail with an
invalid-parameters error. -/
theorem call_tool_absent_arguments (fe : String → Except String String)
    (name : String) :
    call_tool fe name none = call_tool fe name (some []) ∧
    GetBitcoinTipHeightParams.decode [] = .ok ⟨BitcoinNetwork.Mainnet⟩ ∧
    GetLiquidTipHeightParams.decode [] = .ok ⟨LiquidNetwork.Mainnet⟩ ∧
    GetBitcoinMempoolParams.decode [] = .ok ⟨BitcoinNetwork.Mainnet⟩ ∧
    GetLiquidMempoolParams.decode [] = .ok ⟨LiquidNetwork.Mainnet⟩ ∧
    call_tool fe "get_bitcoin_tip_height" none =
      wrapFetch (fe (BITCOIN_MAINNET_API ++ "/blocks/tip/height")) ∧
    call_tool fe "get_liquid_tip_height" none =
      wrapFetch (fe (LIQUID_MAINNET_API ++ "/blocks/tip/height")) ∧
    call_tool fe "get_bitcoin_mempool" none =
      wrapFetch (fe (BITCOIN_MAINNET_API ++ "/mempool")) ∧
    call_tool fe "get_liquid_mempool" none =
      wrapFetch (fe (LIQUID_MAINNET_API ++ "/mempool")) ∧
    call_tool fe "get_bitcoin_tx" none =
      .error (ErrorData.invalid_request "Invalid parameters: missing field `txid`") ∧
    call_tool fe "get_liquid_tx" none =
      .error (ErrorData.invalid_request "Invalid parameters: missing field `txid`") ∧
    call_tool fe "get_bitcoin_block" none =
      .error (ErrorData.invalid_request "Invalid parameters: missing field `hash`") ∧
    call_tool fe "get_liquid_block" none =
      .error (ErrorData.invalid_request "Invalid parameters: missing field `hash`") :=
  ⟨rfl, rfl, rfl, rfl, rfl, rfl, rfl, rfl, rfl, rfl, rfl, rfl, rfl⟩
